import Mathlib

/-!
Verification of the libmtd interface (src/ubi-utils/include/libmtd.h) of
mtd-utils against its natural-language specification.

The repository ships only the header: declarations, struct layouts and doc
comments of the MTD library.  The implementation (libmtd.c) is not part of
the source tree, so the behaviour of each operation is modelled from the
specification, faithful to its words, on top of explicit backend stubs that
record every call reaching the device.  Return conventions that the header
itself documents (0 and -1 results, the tri-state of mtd_is_bad, errno on
libmtd_open failure, the void return of libmtd_close) are taken from the
header, which is authoritative for them.
-/

namespace Libmtd

/-- Maximum MTD device name length (MTD_NAME_MAX in libmtd.h). -/
def MTD_NAME_MAX : Nat := 127

/-- Maximum MTD device type string length (MTD_TYPE_MAX in libmtd.h). -/
def MTD_TYPE_MAX : Nat := 64

/-- The Linux "no such device" error code, referenced as ENODEV by the header
doc comments of mtd_get_info, mtd_get_dev_info and mtd_probe_node. -/
def ENODEV : Int := 19

/-- General MTD information (struct mtd_info in libmtd.h): device count,
lowest and highest device numbers, sysfs support flag. -/
structure mtd_info where
  dev_count : Int
  lowest_dev_num : Int
  highest_dev_num : Int
  sysfs_supported : Bool
deriving Repr, DecidableEq

/-- Information about one MTD device (struct mtd_dev_info in libmtd.h).
The two C string fields are bounded character arrays of capacities
MTD_TYPE_MAX and MTD_NAME_MAX; they are modelled as character lists whose
length is kept within the bound by the resolver. -/
structure mtd_dev_info where
  dev_num : Int
  major : Int
  minor : Int
  type : Int
  type_str : List Char
  name : List Char
  size : Int
  eb_cnt : Int
  eb_size : Int
  min_io_size : Int
  subpage_size : Int
  oob_size : Int
  region_cnt : Int
  writable : Bool
  bb_allowed : Bool
deriving Repr, DecidableEq

/-- The failure taxonomy of the specification (section 7). -/
inductive Failure where
  | SubsystemAbsent
  | NoSuchDevice
  | NotADevice
  | InvalidArgument
  | ReadOnlyDevice
  | Unsupported
  | IoFailure (code : Int)
  | SystemError (code : Int)
deriving Repr, DecidableEq

/-- Tri-state answer of a bad-block query (distinct from the failure case). -/
inductive BadBlockState where
  | Good
  | Bad
deriving Repr, DecidableEq

/-- One call reaching the data backend (the device behind the open file
descriptor): erase-by-index, bad-block query/mark by index, and byte-range
read/write at an absolute device offset. -/
inductive BackendCall where
  | eraseCall (eb : Int)
  | isBadCall (eb : Int)
  | markBadCall (eb : Int)
  | readCall (offset : Int) (len : Int)
  | writeCall (offset : Int) (data : List Nat) (len : Int)
deriving Repr, DecidableEq

/-- Data backend stub standing for the open device handle (the fd argument of
the C functions): gives the backend outcome of each possible call, an error
being the raw backend error code. -/
structure Backend where
  eraseRes : Int → Except Int Unit
  isBadRes : Int → Except Int Bool
  markBadRes : Int → Except Int Unit
  readRes : Int → Int → Except Int (List Nat)
  writeRes : Int → List Nat → Int → Except Int Unit

/-- Modelled from the spec: libmtd.c's mtd_erase is not under src/ (only its
declaration in libmtd.h is).  Spec section 4.3: erase requires
0 <= eb_index < eb_cnt, fails with InvalidArgument otherwise before any
backend contact; a backend failure is surfaced as IoFailure carrying the raw
code, never reinterpreted.  The second component is the list of calls that
reached the backend. -/
def mtd_erase (mtd : mtd_dev_info) (fd : Backend) (eb : Int) :
    Except Failure Unit × List BackendCall :=
  if eb < 0 ∨ mtd.eb_cnt ≤ eb then (.error .InvalidArgument, [])
  else
    match fd.eraseRes eb with
    | .ok _ => (.ok (), [.eraseCall eb])
    | .error c => (.error (.IoFailure c), [.eraseCall eb])

/-- Modelled from the spec: libmtd.c's mtd_is_bad is not under src/.  Spec
sections 4.3 and 8: an out-of-range index fails with InvalidArgument without
reaching the backend; on a device class with no bad-block concept
(bb_allowed false) the engine returns Good deterministically rather than
querying; otherwise the backend is queried and its answer reported as the
tri-state Good/Bad, a backend error as IoFailure.  The header fixes the
tri-state convention: 0 good, 1 bad, -1 failure. -/
def mtd_is_bad (mtd : mtd_dev_info) (fd : Backend) (eb : Int) :
    Except Failure BadBlockState × List BackendCall :=
  if eb < 0 ∨ mtd.eb_cnt ≤ eb then (.error .InvalidArgument, [])
  else if mtd.bb_allowed = false then (.ok .Good, [])
  else
    match fd.isBadRes eb with
    | .ok true => (.ok .Bad, [.isBadCall eb])
    | .ok false => (.ok .Good, [.isBadCall eb])
    | .error c => (.error (.IoFailure c), [.isBadCall eb])

/-- Modelled from the spec: libmtd.c's mtd_mark_bad is not under src/.  Spec
section 4.3: mark_bad "fails fast with Unsupported" when bb_allowed is
false, its first check, before anything touches the backend; an out-of-range
index on a supporting device fails with InvalidArgument (section 8), also
without backend contact; otherwise the mark is issued and a backend error
surfaced as IoFailure. -/
def mtd_mark_bad (mtd : mtd_dev_info) (fd : Backend) (eb : Int) :
    Except Failure Unit × List BackendCall :=
  if mtd.bb_allowed = false then (.error .Unsupported, [])
  else if eb < 0 ∨ mtd.eb_cnt ≤ eb then (.error .InvalidArgument, [])
  else
    match fd.markBadRes eb with
    | .ok _ => (.ok (), [.markBadCall eb])
    | .error c => (.error (.IoFailure c), [.markBadCall eb])

/-- Modelled from the spec: libmtd.c's mtd_read is not under src/.  Spec
section 4.3: read requires a valid eraseblock index, 0 <= offset and
offset + length <= eb_size, failing with InvalidArgument otherwise before
any backend contact; a valid request reads at absolute device offset
eb_index * eb_size + offset (section 6). -/
def mtd_read (mtd : mtd_dev_info) (fd : Backend) (eb : Int) (offs : Int)
    (len : Int) : Except Failure (List Nat) × List BackendCall :=
  if eb < 0 ∨ mtd.eb_cnt ≤ eb then (.error .InvalidArgument, [])
  else if offs < 0 ∨ mtd.eb_size < offs + len then (.error .InvalidArgument, [])
  else
    match fd.readRes (eb * mtd.eb_size + offs) len with
    | .ok data => (.ok data, [.readCall (eb * mtd.eb_size + offs) len])
    | .error c => (.error (.IoFailure c), [.readCall (eb * mtd.eb_size + offs) len])

/-- Modelled from the spec: libmtd.c's mtd_write is not under src/.  Spec
section 4.3: write has the same index and bounds validation as read, and
"additionally fails with ReadOnlyDevice" when the geometry is not writable,
checked before any backend call; a valid request writes at absolute offset
eb_index * eb_size + offset. -/
def mtd_write (mtd : mtd_dev_info) (fd : Backend) (eb : Int) (offs : Int)
    (buf : List Nat) (len : Int) : Except Failure Unit × List BackendCall :=
  if eb < 0 ∨ mtd.eb_cnt ≤ eb then (.error .InvalidArgument, [])
  else if offs < 0 ∨ mtd.eb_size < offs + len then (.error .InvalidArgument, [])
  else if mtd.writable = false then (.error .ReadOnlyDevice, [])
  else
    match fd.writeRes (eb * mtd.eb_size + offs) buf len with
    | .ok _ => (.ok (), [.writeCall (eb * mtd.eb_size + offs) buf len])
    | .error c => (.error (.IoFailure c), [.writeCall (eb * mtd.eb_size + offs) buf len])

/-- Raw per-device metadata as the metadata backend reports it (spec section
6): every geometry attribute keyed by device number, with name and type
strings of unrestricted length (truncation is the resolver's job). -/
structure DevRecord where
  major : Int
  minor : Int
  type : Int
  type_str : List Char
  name : List Char
  size : Int
  eb_cnt : Int
  eb_size : Int
  min_io_size : Int
  subpage_size : Int
  oob_size : Int
  region_cnt : Int
  writable : Bool
  bb_allowed : Bool
deriving Repr, DecidableEq

/-- Metadata backend stub (spec section 6): a read-only key-value source
keyed by device number; none means the device does not exist. -/
structure MetaBackend where
  devs : Int → Option DevRecord

/-- Modelled from the spec: the resolver's populate step (libmtd.c is not
under src/).  Spec section 4.2: populate every field of the geometry from
the backend record, truncating name and type_str to their maximum lengths
rather than erroring; resolution is a pure read-and-populate step with no
consistency validation. -/
def populate_dev_info (dev_num : Int) (r : DevRecord) : mtd_dev_info :=
  { dev_num := dev_num
    major := r.major
    minor := r.minor
    type := r.type
    type_str := r.type_str.take MTD_TYPE_MAX
    name := r.name.take MTD_NAME_MAX
    size := r.size
    eb_cnt := r.eb_cnt
    eb_size := r.eb_size
    min_io_size := r.min_io_size
    subpage_size := r.subpage_size
    oob_size := r.oob_size
    region_cnt := r.region_cnt
    writable := r.writable
    bb_allowed := r.bb_allowed }

/-- Modelled from the spec: libmtd.c's mtd_get_dev_info1 is not under src/.
Resolves geometry by numeric device number: fails with NoSuchDevice when no
live device has that number, otherwise populates a mtd_dev_info from the
metadata backend record. -/
def mtd_get_dev_info1 (be : MetaBackend) (dev_num : Int) :
    Except Failure mtd_dev_info :=
  match be.devs dev_num with
  | none => .error .NoSuchDevice
  | some r => .ok (populate_dev_info dev_num r)

/-- Modelled from the spec: libmtd.c's mtd_get_dev_info is not under src/.
The path entry point extracts the device number from the node path (an
external collaborator, spec section 6, here the function dev_node_num) and
resolves through the same number-keyed path as mtd_get_dev_info1; a path
that does not correspond to a flash device fails with NoSuchDevice. -/
def mtd_get_dev_info (be : MetaBackend) (dev_node_num : String → Option Int)
    (node : String) : Except Failure mtd_dev_info :=
  match dev_node_num node with
  | none => .error .NoSuchDevice
  | some d => mtd_get_dev_info1 be d

/-- A library session (the opaque libmtd_t descriptor): carries the
subsystem-wide information gathered at open. -/
structure Session where
  info : mtd_info
deriving Repr, DecidableEq

/-- Result type of closing a session: the header declares libmtd_close with
a void return, so releasing the resources is the only possible outcome. -/
inductive CloseResult where
  | released
deriving Repr, DecidableEq

/-- State of the system at the time the library is opened: the MTD subsystem
may be absent, initialization may fail with a real OS error, or the
subsystem is present with some (possibly empty) device population. -/
inductive OpenEnv where
  | absent
  | failing (code : Int)
  | present (info : mtd_info)
deriving Repr, DecidableEq

/-- Modelled from the spec: libmtd.c's libmtd_open is not under src/.  The
result pairs the abstract outcome with the errno value the header documents:
the descriptor is NULL on failure, and "errno contains zero if MTD is not
present in the system, or contains the error code if a real error
happened" (libmtd.h lines 89-97).  Spec section 4.1: absence fails with
SubsystemAbsent, any other initialization fault with SystemError carrying
the OS code, and a successful open yields a usable Session even with zero
devices. -/
def libmtd_open (env : OpenEnv) : Except Failure Session × Int :=
  match env with
  | .absent => (.error .SubsystemAbsent, 0)
  | .failing code => (.error (.SystemError code), code)
  | .present i => (.ok ⟨i⟩, 0)

/-- Modelled from the spec and the header's void signature: libmtd_close
releases the session's resources; having no return value, it has no failure
channel, so release is its only outcome. -/
def libmtd_close (desc : Session) : CloseResult :=
  match desc with
  | _ => CloseResult.released

/-- Modelled from the spec: libmtd.c's mtd_get_info is not under src/.  Spec
section 4.1: fails with SubsystemAbsent when the subsystem disappeared since
open, otherwise always succeeds, even with dev_count = 0. -/
def mtd_get_info (subsystem_present : Bool) (desc : Session) :
    Except Failure mtd_info :=
  if subsystem_present then .ok desc.info else .error .SubsystemAbsent

/-- What the filesystem says about a path handed to the prober: the path may
be missing or unreadable (probing impossible, with the OS error), may exist
without being a flash device node, or may be a flash node carrying an
extractable device number. -/
inductive PathStatus where
  | absent (oserr : Int)
  | notFlash
  | flashNode (dev_num : Int)
deriving Repr, DecidableEq

/-- Modelled from the spec: libmtd.c's mtd_probe_node is not under src/.
Spec section 4.4: success means the path names a live flash device node
(its device number checked cheaply against the registry's known range);
a path that is legitimately not a flash node fails with NotADevice, a path
that cannot be probed at all fails through the same failure channel with
the underlying SystemError; a boolean false is never produced. -/
def mtd_probe_node (desc : Session) (stat : PathStatus) :
    Except Failure Bool :=
  match stat with
  | .absent e => .error (.SystemError e)
  | .notFlash => .error .NotADevice
  | .flashNode d =>
      if desc.info.lowest_dev_num ≤ d ∧ d ≤ desc.info.highest_dev_num then
        .ok true
      else .error .NotADevice

/-- The scenario geometry of spec section 8: 100 eraseblocks of 4096 bytes,
writable, bad blocks allowed. -/
def specGeom : mtd_dev_info :=
  { dev_num := 0
    major := 90
    minor := 0
    type := 4
    type_str := ['n', 'a', 'n', 'd']
    name := ['t', 'e', 's', 't']
    size := 409600
    eb_cnt := 100
    eb_size := 4096
    min_io_size := 512
    subpage_size := 512
    oob_size := 16
    region_cnt := 0
    writable := true
    bb_allowed := true }

/-- The scenario geometry with bad blocks not allowed. -/
def noBBGeom : mtd_dev_info :=
  { specGeom with bb_allowed := false }

/-- The scenario geometry of a read-only device. -/
def roGeom : mtd_dev_info :=
  { specGeom with writable := false }

/-- A backend stub on which every call succeeds (reads return an empty
buffer, bad-block queries answer good). -/
def stubBackend : Backend :=
  { eraseRes := fun _ => .ok ()
    isBadRes := fun _ => .ok false
    markBadRes := fun _ => .ok ()
    readRes := fun _ _ => .ok []
    writeRes := fun _ _ _ => .ok () }

/-- A backend stub whose bad-block query answers bad. -/
def badBlockBackend : Backend :=
  { stubBackend with isBadRes := fun _ => .ok true }

/-- A backend stub whose bad-block query fails with raw error code 5. -/
def failBackend : Backend :=
  { stubBackend with isBadRes := fun _ => .error 5 }

/-- A metadata record matching the scenario geometry. -/
def demoRecord : DevRecord :=
  { major := 90
    minor := 0
    type := 4
    type_str := ['n', 'a', 'n', 'd']
    name := ['t', 'e', 's', 't']
    size := 409600
    eb_cnt := 100
    eb_size := 4096
    min_io_size := 512
    subpage_size := 512
    oob_size := 16
    region_cnt := 0
    writable := true
    bb_allowed := true }

/-- A metadata backend exposing demoRecord as device number 0. -/
def demoMeta : MetaBackend :=
  { devs := fun d => if d = 0 then some demoRecord else none }

/-- A device-number extraction mapping the node path of device 0. -/
def demoPath : String → Option Int :=
  fun s => if s = "/dev/mtd0" then some 0 else none

/-- A metadata record whose name (130 characters) and type string (70
characters) both exceed their maximum lengths. -/
def longRecord : DevRecord :=
  { demoRecord with
    name := List.replicate 130 'a'
    type_str := List.replicate 70 'b' }

/-- A metadata backend exposing longRecord as device number 7. -/
def longMeta : MetaBackend :=
  { devs := fun d => if d = 7 then some longRecord else none }

/-- A metadata record where only the name (130 characters) exceeds its
maximum length; the type string stays within bounds. -/
def longNameRecord : DevRecord :=
  { demoRecord with name := List.replicate 130 'a' }

/-- A metadata backend exposing longNameRecord as device number 7. -/
def longNameMeta : MetaBackend :=
  { devs := fun d => if d = 7 then some longNameRecord else none }

/-- Subsystem information with zero devices present. -/
def zeroDevInfo : mtd_info :=
  { dev_count := 0
    lowest_dev_num := 0
    highest_dev_num := -1
    sysfs_supported := true }

/-- Claim C1 (amended): with an eraseblock index outside the valid range,
erase, read, write and is_bad fail with InvalidArgument; mark_bad fails with
InvalidArgument when bad blocks are allowed and with Unsupported when they
are not (its capability check fires first); in every case no call reaches
the backend. -/
theorem eb_out_of_range_checks (mtd : mtd_dev_info) (fd : Backend)
    (eb offs len : Int) (buf : List Nat)
    (h : eb < 0 ∨ mtd.eb_cnt ≤ eb) :
    mtd_erase mtd fd eb = (.error .InvalidArgument, [])
    ∧ mtd_read mtd fd eb offs len = (.error .InvalidArgument, [])
    ∧ mtd_write mtd fd eb offs buf len = (.error .InvalidArgument, [])
    ∧ mtd_is_bad mtd fd eb = (.error .InvalidArgument, [])
    ∧ (mtd.bb_allowed = true →
        mtd_mark_bad mtd fd eb = (.error .InvalidArgument, []))
    ∧ (mtd.bb_allowed = false →
        mtd_mark_bad mtd fd eb = (.error .Unsupported, []))
    ∧ (mtd_mark_bad mtd fd eb).2 = [] := by
  refine ⟨?_, ?_, ?_, ?_, ?_, ?_, ?_⟩
  · simp [mtd_erase, h]
  · simp [mtd_read, h]
  · simp [mtd_write, h]
  · simp [mtd_is_bad, h]
  · intro hb; simp [mtd_mark_bad, hb, h]
  · intro hb; simp [mtd_mark_bad, hb]
  · cases hb : mtd.bb_allowed
    · simp [mtd_mark_bad, hb]
    · simp [mtd_mark_bad, hb, h]

/-- Claim C1 (witness): on the scenario geometry, index 100 is rejected with
InvalidArgument by all five operations without backend contact. -/
theorem eb_out_of_range_checks_witness :
    mtd_erase specGeom stubBackend 100 = (.error .InvalidArgument, [])
    ∧ mtd_read specGeom stubBackend 100 0 0 = (.error .InvalidArgument, [])
    ∧ mtd_write specGeom stubBackend 100 0 [] 0 = (.error .InvalidArgument, [])
    ∧ mtd_is_bad specGeom stubBackend 100 = (.error .InvalidArgument, [])
    ∧ mtd_mark_bad specGeom stubBackend 100 = (.error .InvalidArgument, []) := by
  have h := eb_out_of_range_checks specGeom stubBackend 100 0 0 [] (by decide)
  exact ⟨h.1, h.2.1, h.2.2.1, h.2.2.2.1, h.2.2.2.2.1 (by decide)⟩

/-- Claim C1 (counterexample): on a geometry that does not allow bad blocks,
mark_bad with out-of-range index 100 fails with Unsupported, not with
InvalidArgument as the claim states (the backend is still never contacted). -/
theorem mark_bad_out_of_range_not_invalid_argument :
    (mtd_mark_bad noBBGeom stubBackend 100).1 = .error .Unsupported
    ∧ (mtd_mark_bad noBBGeom stubBackend 100).1 ≠ .error .InvalidArgument
    ∧ (mtd_mark_bad noBBGeom stubBackend 100).2 = [] := by
  have h : (mtd_mark_bad noBBGeom stubBackend 100).1 = .error .Unsupported := rfl
  refine ⟨h, ?_, rfl⟩
  rw [h]
  simp

/-- Claim C2: with a valid eraseblock index, read and write reject a
negative offset or offset + length beyond eb_size with InvalidArgument and
no backend contact; requests with offset + length at or below eb_size pass
validation, the exact-boundary case included: read reaches the backend and
returns its data, and write is never rejected with InvalidArgument. -/
theorem rw_bounds_check (mtd : mtd_dev_info) (fd : Backend)
    (eb offs : Int) (buf : List Nat) (len : Int)
    (h0 : 0 ≤ eb) (h1 : eb < mtd.eb_cnt) :
    ((offs < 0 ∨ mtd.eb_size < offs + len) →
      mtd_read mtd fd eb offs len = (.error .InvalidArgument, [])
      ∧ mtd_write mtd fd eb offs buf len = (.error .InvalidArgument, []))
    ∧ (0 ≤ offs → offs + len ≤ mtd.eb_size →
      (∀ data, fd.readRes (eb * mtd.eb_size + offs) len = .ok data →
        mtd_read mtd fd eb offs len =
          (.ok data, [.readCall (eb * mtd.eb_size + offs) len]))
      ∧ (mtd_write mtd fd eb offs buf len).1 ≠ .error .InvalidArgument) := by
  have hidx : ¬(eb < 0 ∨ mtd.eb_cnt ≤ eb) := by omega
  constructor
  · intro hv
    constructor
    · simp [mtd_read, hidx, hv]
    · simp [mtd_write, hidx, hv]
  · intro ho hl
    have hb : ¬(offs < 0 ∨ mtd.eb_size < offs + len) := by omega
    constructor
    · intro data hdata
      simp [mtd_read, hidx, hb, hdata]
    · simp only [mtd_write, if_neg hidx, if_neg hb]
      cases hw : mtd.writable
      · simp
      · simp only [Bool.true_eq_false, if_false]
        cases fd.writeRes (eb * mtd.eb_size + offs) buf len <;> simp

/-- Claim C2 (witness): on the scenario geometry, read at offset 4090 of
length 10 fails with InvalidArgument while read at offset 4086 of length 10
reaches the backend and succeeds. -/
theorem rw_bounds_check_witness :
    mtd_read specGeom stubBackend 99 4090 10 = (.error .InvalidArgument, [])
    ∧ mtd_read specGeom stubBackend 99 4086 10 =
        (.ok [], [.readCall (99 * 4096 + 4086) 10]) := by
  have h := rw_bounds_check specGeom stubBackend 99 4090 [] 10
    (by decide) (by decide)
  have h2 := rw_bounds_check specGeom stubBackend 99 4086 [] 10
    (by decide) (by decide)
  exact ⟨(h.1 (by decide)).1, (h2.2 (by decide) (by decide)).1 [] rfl⟩

/-- Claim C3 (amended): on a geometry that is not writable, every write call
with an in-range eraseblock index and in-bounds offset and length fails with
ReadOnlyDevice and no call reaches the backend; out-of-range or out-of-bounds
write calls fail with InvalidArgument, also without backend contact. -/
theorem write_read_only (mtd : mtd_dev_info) (fd : Backend)
    (eb offs : Int) (buf : List Nat) (len : Int)
    (hw : mtd.writable = false)
    (h0 : 0 ≤ eb) (h1 : eb < mtd.eb_cnt)
    (ho : 0 ≤ offs) (hl : offs + len ≤ mtd.eb_size) :
    mtd_write mtd fd eb offs buf len = (.error .ReadOnlyDevice, []) := by
  have hidx : ¬(eb < 0 ∨ mtd.eb_cnt ≤ eb) := by omega
  have hb : ¬(offs < 0 ∨ mtd.eb_size < offs + len) := by omega
  simp [mtd_write, hidx, hb, hw]

/-- Claim C3 (witness): a valid write request on the read-only scenario
geometry fails with ReadOnlyDevice without backend contact. -/
theorem write_read_only_witness :
    mtd_write roGeom stubBackend 0 0 [] 0 = (.error .ReadOnlyDevice, []) :=
  write_read_only roGeom stubBackend 0 0 [] 0 rfl
    (by decide) (by decide) (by decide) (by decide)

/-- Claim C3 (counterexample): on the read-only scenario geometry, a write
with out-of-range index 100 fails with InvalidArgument, not ReadOnlyDevice
as the claim states (the backend is still never contacted). -/
theorem write_read_only_out_of_range :
    roGeom.writable = false
    ∧ (mtd_write roGeom stubBackend 100 0 [] 0).1 = .error .InvalidArgument
    ∧ (mtd_write roGeom stubBackend 100 0 [] 0).1 ≠ .error .ReadOnlyDevice
    ∧ (mtd_write roGeom stubBackend 100 0 [] 0).2 = [] := by
  have h : (mtd_write roGeom stubBackend 100 0 [] 0).1 = .error .InvalidArgument := rfl
  refine ⟨rfl, h, ?_, rfl⟩
  rw [h]
  simp

/-- Claim C4: on a geometry that does not allow bad blocks, every mark_bad
call fails with Unsupported and no call reaches the backend. -/
theorem mark_bad_unsupported (mtd : mtd_dev_info) (fd : Backend) (eb : Int)
    (h : mtd.bb_allowed = false) :
    mtd_mark_bad mtd fd eb = (.error .Unsupported, []) := by
  simp [mtd_mark_bad, h]

/-- Claim C4 (witness): mark_bad on the no-bad-blocks scenario geometry
fails with Unsupported without backend contact. -/
theorem mark_bad_unsupported_witness :
    mtd_mark_bad noBBGeom stubBackend 0 = (.error .Unsupported, []) :=
  mark_bad_unsupported noBBGeom stubBackend 0 rfl

/-- Claim C5: when a node path extracts to device number d and device d is
live, resolving geometry by path and resolving it by number succeed with the
same mtd_dev_info record, identical in every field. -/
theorem get_dev_info_path_number_agree (be : MetaBackend)
    (f : String → Option Int) (node : String) (d : Int) (r : DevRecord)
    (hpath : f node = some d) (hdev : be.devs d = some r) :
    ∃ g, mtd_get_dev_info be f node = .ok g
      ∧ mtd_get_dev_info1 be d = .ok g := by
  refine ⟨populate_dev_info d r, ?_, ?_⟩
  · simp [mtd_get_dev_info, mtd_get_dev_info1, hpath, hdev]
  · simp [mtd_get_dev_info1, hdev]

/-- Claim C5 (witness): the demo backend resolves the node path of device 0
and the number 0 to the same record. -/
theorem get_dev_info_path_number_agree_witness :
    ∃ g, mtd_get_dev_info demoMeta demoPath "/dev/mtd0" = .ok g
      ∧ mtd_get_dev_info1 demoMeta 0 = .ok g :=
  get_dev_info_path_number_agree demoMeta demoPath "/dev/mtd0" 0 demoRecord
    (by simp [demoPath]) (by simp [demoMeta])

/-- Claim C6: is_bad has exactly three distinguishable outcomes: every
result is ok Good, ok Bad, or an error; the three shapes are pairwise
distinct values of the result type; and each of the three is realized by a
concrete device state (good block, bad block, failing query). -/
theorem is_bad_tri_state :
    (∀ (mtd : mtd_dev_info) (fd : Backend) (eb : Int),
      (mtd_is_bad mtd fd eb).1 = .ok .Good
      ∨ (mtd_is_bad mtd fd eb).1 = .ok .Bad
      ∨ ∃ f, (mtd_is_bad mtd fd eb).1 = .error f)
    ∧ ((Except.ok BadBlockState.Good : Except Failure BadBlockState) ≠ .ok .Bad)
    ∧ (∀ f : Failure,
        (Except.error f : Except Failure BadBlockState) ≠ .ok .Good
        ∧ (Except.error f : Except Failure BadBlockState) ≠ .ok .Bad)
    ∧ (mtd_is_bad specGeom stubBackend 0).1 = .ok .Good
    ∧ (mtd_is_bad specGeom badBlockBackend 0).1 = .ok .Bad
    ∧ (mtd_is_bad specGeom failBackend 0).1 = .error (.IoFailure 5) := by
  refine ⟨?_, by simp, ?_, rfl, rfl, rfl⟩
  · intro mtd fd eb
    cases h : (mtd_is_bad mtd fd eb).1 with
    | ok b =>
      cases b with
      | Good => exact Or.inl rfl
      | Bad => exact Or.inr (Or.inl rfl)
    | error f => exact Or.inr (Or.inr ⟨f, rfl⟩)
  · intro f
    exact ⟨by simp, by simp⟩

/-- Claim C7: probe_node never returns a boolean false; its only outcomes
are success (the path names a live flash node), the NotADevice failure, or a
SystemError through the same failure channel when probing is impossible; a
path that exists but is not a flash node fails with NotADevice exactly. -/
theorem probe_node_failure_channel :
    (∀ (desc : Session) (stat : PathStatus),
      mtd_probe_node desc stat ≠ .ok false)
    ∧ (∀ (desc : Session) (stat : PathStatus),
      mtd_probe_node desc stat = .ok true
      ∨ mtd_probe_node desc stat = .error .NotADevice
      ∨ ∃ e, mtd_probe_node desc stat = .error (.SystemError e))
    ∧ (∀ desc : Session,
      mtd_probe_node desc .notFlash = .error .NotADevice) := by
  refine ⟨?_, ?_, fun desc => rfl⟩
  · intro desc stat
    cases stat with
    | absent e => simp [mtd_probe_node]
    | notFlash => simp [mtd_probe_node]
    | flashNode d =>
      simp only [mtd_probe_node]
      split <;> simp
  · intro desc stat
    cases stat with
    | absent e => exact Or.inr (Or.inr ⟨e, rfl⟩)
    | notFlash => exact Or.inr (Or.inl rfl)
    | flashNode d =>
      simp only [mtd_probe_node]
      split
      · exact Or.inl rfl
      · exact Or.inr (Or.inl rfl)

/-- Claim C8 (counterexample): when the subsystem is absent, open fails with
SubsystemAbsent but the errno it reports is 0, not the "no such device"
code ENODEV: the header documents that errno contains zero when MTD is not
present, so SubsystemAbsent does not map to the no-such-device error
class. -/
theorem libmtd_open_absent_errno_zero :
    (libmtd_open .absent).1 = .error .SubsystemAbsent
    ∧ (libmtd_open .absent).2 = 0
    ∧ (libmtd_open .absent).2 ≠ ENODEV := by
  refine ⟨rfl, rfl, by decide⟩

/-- Claim C8 (amended): when the subsystem is absent, open fails with
SubsystemAbsent, signalled by errno zero rather than an error code; any
other initialization fault fails with SystemError carrying the OS error
code, which is also reported through errno; opening with the subsystem
present succeeds, and the resulting session is usable even with zero
devices: get_info succeeds on it. -/
theorem libmtd_open_failure_modes :
    libmtd_open .absent = (.error .SubsystemAbsent, 0)
    ∧ (∀ c : Int, libmtd_open (.failing c) = (.error (.SystemError c), c))
    ∧ (∀ i : mtd_info, i.dev_count = 0 →
        (libmtd_open (.present i)).1 = .ok ⟨i⟩
        ∧ mtd_get_info true ⟨i⟩ = .ok i) :=
  ⟨rfl, fun _ => rfl, fun _ _ => ⟨rfl, rfl⟩⟩

/-- Claim C8 (witness): opening with the subsystem present and zero devices
succeeds with a session on which get_info succeeds. -/
theorem libmtd_open_failure_modes_witness :
    (libmtd_open (.present zeroDevInfo)).1 = .ok ⟨zeroDevInfo⟩
    ∧ mtd_get_info true ⟨zeroDevInfo⟩ = .ok zeroDevInfo :=
  libmtd_open_failure_modes.2.2 zeroDevInfo rfl

/-- Claim C9: for every live device, geometry resolution succeeds, storing
the name and type string truncated to at most their maximum lengths; and
whenever either string alone exceeds its maximum (name beyond MTD_NAME_MAX,
type string beyond MTD_TYPE_MAX), that string is stored at exactly the
maximum length — over-length strings are never reported as an error. -/
theorem name_type_truncation (be : MetaBackend) (d : Int) (r : DevRecord)
    (hdev : be.devs d = some r) :
    ∃ g, mtd_get_dev_info1 be d = .ok g
      ∧ (MTD_NAME_MAX < r.name.length → g.name.length = MTD_NAME_MAX)
      ∧ (MTD_TYPE_MAX < r.type_str.length → g.type_str.length = MTD_TYPE_MAX)
      ∧ g.name = r.name.take MTD_NAME_MAX
      ∧ g.type_str = r.type_str.take MTD_TYPE_MAX := by
  refine ⟨populate_dev_info d r, ?_, ?_, ?_, rfl, rfl⟩
  · simp [mtd_get_dev_info1, hdev]
  · intro hn
    simp [populate_dev_info, List.length_take,
      Nat.min_eq_left (Nat.le_of_lt hn)]
  · intro ht
    simp [populate_dev_info, List.length_take,
      Nat.min_eq_left (Nat.le_of_lt ht)]

/-- Claim C9 (witness): a device whose name alone is over-length (130
characters, type string in bounds) resolves successfully with the name cut
to exactly 127 characters; a device with a 130-character name and a
70-character type string resolves with both strings cut to 127 and 64. -/
theorem name_type_truncation_witness :
    (∃ g, mtd_get_dev_info1 longNameMeta 7 = .ok g
      ∧ g.name.length = MTD_NAME_MAX
      ∧ g.name = longNameRecord.name.take MTD_NAME_MAX)
    ∧ (∃ g, mtd_get_dev_info1 longMeta 7 = .ok g
      ∧ g.name.length = MTD_NAME_MAX
      ∧ g.type_str.length = MTD_TYPE_MAX) := by
  constructor
  · obtain ⟨g, h1, h2, h3, h4, h5⟩ :=
      name_type_truncation longNameMeta 7 longNameRecord rfl
    exact ⟨g, h1, h2 (by simp [longNameRecord, MTD_NAME_MAX]), h4⟩
  · obtain ⟨g, h1, h2, h3, h4, h5⟩ :=
      name_type_truncation longMeta 7 longRecord rfl
    exact ⟨g, h1, h2 (by simp [longRecord, MTD_NAME_MAX]),
      h3 (by simp [longRecord, MTD_TYPE_MAX])⟩

/-- Claim C10: closing a session has no failure channel: libmtd_close
always yields the released outcome, and released is the only value its
result type has, so close cannot report an error. -/
theorem libmtd_close_no_failure :
    (∀ desc : Session, libmtd_close desc = CloseResult.released)
    ∧ (∀ r : CloseResult, r = CloseResult.released) := by
  refine ⟨fun desc => rfl, fun r => ?_⟩
  cases r
  rfl

end Libmtd
